import Mathlib

/-!
Shallow embedding of the DMARC analyzer API (`src/api/app.py`) and proofs
about its query builder, cache-key derivation, cache-first read handlers,
pagination arithmetic, ingestion side effects and live-update broadcaster.

Machine integers are modelled as `Int` (Python integers are unbounded);
Python floor division `//` is `Int.fdiv`; fallible calls to Elasticsearch
and Redis are modelled as `Except`/`Option`-valued inputs to the handlers.
-/

namespace Dmarc

/-- A JSON-like value, the payload type of HTTP bodies and cache entries. -/
inductive JVal where
  | null
  | b (v : Bool)
  | n (v : Int)
  | s (v : String)
  | arr (items : List JVal)
  | obj (fields : List (String × JVal))

/-- Python truthiness of a JSON value (`if cached:`, `if not data:`):
`None`, `False`, `0`, `""`, `[]` and `{}` are falsy. -/
def JVal.truthy : JVal → Bool
  | .null => false
  | .b v => v
  | .n v => v != 0
  | .s v => !v.isEmpty
  | .arr items => !items.isEmpty
  | .obj fields => !fields.isEmpty

/-- Truthiness of `request.args.get(name)`: `None` (absent) and the empty
string are falsy; `strOpt` collapses both to `none`. -/
def strOpt : Option String → Option String
  | none => none
  | some s => if s.isEmpty then none else some s

/-- A query parameter is present when `request.args.get` returns a truthy
string. -/
def present (o : Option String) : Bool :=
  (strOpt o).isSome

/-- One clause of the Elasticsearch query DSL as built by `app.py`:
a flat `term` filter, a `nested` wrapper holding a `term` on a nested
path, or a `range` on a field with optional `gte`/`lte` bounds. -/
inductive Clause where
  | term (field value : String)
  | nestedTerm (path field value : String)
  | range (field : String) (gte lte : Option String)
  deriving DecidableEq

/-- The query part of an Elasticsearch request body: `match_all`, a
`bool`/`filter` conjunction of clauses, or a single bare clause used as
the whole query (the timeline endpoint's bare `range`). -/
inductive EsQuery where
  | matchAll
  | boolFilter (filters : List Clause)
  | singleClause (c : Clause)
  deriving DecidableEq

/-- The clauses an `EsQuery` carries (`match_all` carries none). -/
def EsQuery.clauses : EsQuery → List Clause
  | .matchAll => []
  | .boolFilter filters => filters
  | .singleClause c => [c]

/-- The request-scoped filter set of the listing endpoint: the five
optional query parameters read at `src/api/app.py` lines 174-178. -/
structure FilterSet where
  org_name : Option String
  domain : Option String
  disposition : Option String
  date_from : Option String
  date_to : Option String
  deriving DecidableEq

/-- The filter list built by `get_reports` (`src/api/app.py` lines 182-199):
one `term` per truthy `org_name`/`domain`, one `nested` wrapper per truthy
`disposition`, and one `range` on `@timestamp` whose `gte`/`lte` keys are
set exactly for the truthy bounds, appended when either bound is truthy. -/
def buildFilters (f : FilterSet) : List Clause :=
  (match strOpt f.org_name with
    | some s => [Clause.term "org_name.keyword" s]
    | none => []) ++
  (match strOpt f.domain with
    | some s => [Clause.term "policy_published.domain.keyword" s]
    | none => []) ++
  (match strOpt f.disposition with
    | some s =>
        [Clause.nestedTerm "records"
          "records.policy_evaluated.disposition.keyword" s]
    | none => []) ++
  (match strOpt f.date_from, strOpt f.date_to with
    | none, none => []
    | gte, lte => [Clause.range "@timestamp" gte lte])

/-- The query built by `get_reports` (`src/api/app.py` lines 180-202):
starts as `match_all`, replaced by a `bool`/`filter` conjunction when the
filter list is nonempty. -/
def buildQuery (f : FilterSet) : EsQuery :=
  let filters := buildFilters f
  if filters.isEmpty then EsQuery.matchAll else EsQuery.boolFilter filters

/-- How many of the four filters (org, domain, disposition, date range)
are present in a filter set; the date range counts once when either bound
is present. -/
def presentCount (f : FilterSet) : Nat :=
  (if present f.org_name then 1 else 0) +
    (if present f.domain then 1 else 0) +
    (if present f.disposition then 1 else 0) +
    (if present f.date_from || present f.date_to then 1 else 0)

/-- Recognizes the organization-name term clause. -/
def Clause.isOrg : Clause → Bool
  | .term fld _ => fld == "org_name.keyword"
  | _ => false

/-- Recognizes the domain term clause. -/
def Clause.isDomain : Clause → Bool
  | .term fld _ => fld == "policy_published.domain.keyword"
  | _ => false

/-- Recognizes a nested-query wrapper clause. -/
def Clause.isNested : Clause → Bool
  | .nestedTerm _ _ _ => true
  | _ => false

/-- Recognizes a range clause. -/
def Clause.isRange : Clause → Bool
  | .range _ _ _ => true
  | _ => false

/-- C1: if no filter is present the built query is `match_all`; if at
least one filter is present it is a `bool`/`filter` conjunction holding
exactly one clause per present filter (org-name term, domain term, nested
disposition wrapper, timestamp range) and no clause for any absent one. -/
theorem C1_filter_query_shape (f : FilterSet) :
    (presentCount f = 0 → buildQuery f = EsQuery.matchAll) ∧
    (0 < presentCount f →
      buildQuery f = EsQuery.boolFilter (buildFilters f) ∧
      (buildFilters f).length = presentCount f ∧
      (buildFilters f).countP (fun c => c.isOrg) =
        (if present f.org_name then 1 else 0) ∧
      (buildFilters f).countP (fun c => c.isDomain) =
        (if present f.domain then 1 else 0) ∧
      (buildFilters f).countP (fun c => c.isNested) =
        (if present f.disposition then 1 else 0) ∧
      (buildFilters f).countP (fun c => c.isRange) =
        (if present f.date_from || present f.date_to then 1 else 0)) := by
  rcases f with ⟨o, d, dis, df, dt⟩
  rcases ho : strOpt o with _ | so <;> rcases hd : strOpt d with _ | sd <;>
    rcases hs : strOpt dis with _ | ss <;> rcases hf : strOpt df with _ | sf <;>
    rcases ht : strOpt dt with _ | st <;>
    simp [buildQuery, buildFilters, presentCount, present, ho, hd, hs, hf, ht,
      Clause.isOrg, Clause.isDomain, Clause.isNested, Clause.isRange,
      List.countP_cons, List.countP_nil]

/-- Witness for C1 at concrete inputs: the empty filter set yields
`match_all`; a filter set with an org name and a lower date bound yields a
two-clause conjunction. -/
theorem C1_filter_query_shape_witness :
    buildQuery ⟨none, none, none, none, none⟩ = EsQuery.matchAll ∧
    buildQuery ⟨some "Google", none, none, some "2024-01-01", none⟩ =
      EsQuery.boolFilter
        [Clause.term "org_name.keyword" "Google",
          Clause.range "@timestamp" (some "2024-01-01") none] :=
  ⟨(C1_filter_query_shape ⟨none, none, none, none, none⟩).1 (by decide),
    ((C1_filter_query_shape
      ⟨some "Google", none, none, some "2024-01-01", none⟩).2 (by decide)).1⟩

/-- C9: a present disposition filter appears in the built query as the
nested-query wrapper on path `records`, and the built query never contains
a flat term clause on the nested disposition field. -/
theorem C9_disposition_nested (f : FilterSet) :
    (∀ s, strOpt f.disposition = some s →
      Clause.nestedTerm "records"
        "records.policy_evaluated.disposition.keyword" s ∈
        (buildQuery f).clauses) ∧
    (∀ v, Clause.term "records.policy_evaluated.disposition.keyword" v ∉
      (buildQuery f).clauses) := by
  rcases f with ⟨o, d, dis, df, dt⟩
  rcases ho : strOpt o with _ | so <;> rcases hd : strOpt d with _ | sd <;>
    rcases hs : strOpt dis with _ | ss <;> rcases hf : strOpt df with _ | sf <;>
    rcases ht : strOpt dt with _ | st <;>
    simp [buildQuery, buildFilters, EsQuery.clauses, ho, hd, hs, hf, ht]

/-- Witness for C9 at a concrete input: with disposition `reject` the
built query holds the nested wrapper, and no flat disposition term clause
occurs in it. -/
theorem C9_disposition_nested_witness :
    Clause.nestedTerm "records"
      "records.policy_evaluated.disposition.keyword" "reject" ∈
      (buildQuery ⟨none, none, some "reject", none, none⟩).clauses ∧
    Clause.term "records.policy_evaluated.disposition.keyword" "reject" ∉
      (buildQuery ⟨none, none, some "reject", none, none⟩).clauses :=
  ⟨(C9_disposition_nested ⟨none, none, some "reject", none, none⟩).1
      "reject" (by decide),
    (C9_disposition_nested ⟨none, none, some "reject", none, none⟩).2
      "reject"⟩

/-- Python `repr` of one string-valued dict entry, `'key': 'value'`, as it
appears inside `str(params)`. -/
def reprEntry (kv : String × String) : String :=
  "'" ++ kv.1 ++ "': '" ++ kv.2 ++ "'"

/-- Python `str` of a string-keyed, string-valued dict. A dict keeps
insertion order, so the representation lists the entries in insertion
order, joined by a comma-space, between braces. -/
def strParams (params : List (String × String)) : String :=
  "\x7b" ++ String.intercalate ", " (params.map reprEntry) ++ "\x7d"

/-- Deterministic stand-in for CPython's builtin string `hash` (a
per-process-seeded SipHash; any hash separating the distinct short
strings used below exhibits the same behavior): a base-31 polynomial in
the code points. -/
def strHash (s : String) : Int :=
  s.data.foldl (fun h c => h * 31 + (c.toNat : Int)) 0

/-- `get_cache_key` (`src/api/app.py` lines 60-62): the f-string
`api:{endpoint}:{hash(str(params))}`, with the builtin hash abstracted as
`pyHash`. The parameters are hashed through their insertion-ordered dict
representation; nothing sorts them. -/
def get_cache_key (pyHash : String → Int) (endpoint : String)
    (params : List (String × String)) : String :=
  "api:" ++ endpoint ++ ":" ++ toString (pyHash (strParams params))

/-- C3 counterexample: the same key/value pairs in two insertion orders
produce different `str(params)` texts (whatever the hash), and under the
stand-in hash they produce different cache keys, refuting order
independence of `get_cache_key`. -/
theorem C3_cache_key_counterexample :
    strParams [("a", "1"), ("b", "2")] ≠ strParams [("b", "2"), ("a", "1")] ∧
    get_cache_key strHash "top_orgs" [("a", "1"), ("b", "2")] ≠
      get_cache_key strHash "top_orgs" [("b", "2"), ("a", "1")] := by
  constructor <;> decide

/-- C3 amended: `get_cache_key` is deterministic in the endpoint and the
insertion-ordered dict representation of the parameters — equal
representations give equal keys — and whenever the hash values of two
representations print differently the keys differ (so distinct parameter
values separate keys whenever the hash separates their representations). -/
theorem C3_cache_key_determinism (pyHash : String → Int) (endpoint : String)
    (p1 p2 : List (String × String)) :
    (strParams p1 = strParams p2 →
      get_cache_key pyHash endpoint p1 = get_cache_key pyHash endpoint p2) ∧
    (toString (pyHash (strParams p1)) ≠ toString (pyHash (strParams p2)) →
      get_cache_key pyHash endpoint p1 ≠ get_cache_key pyHash endpoint p2) := by
  constructor
  · intro h
    simp [get_cache_key, h]
  · intro h hk
    apply h
    have hdata := congrArg String.data hk
    simp only [get_cache_key, String.data_append] at hdata
    have := List.append_cancel_left hdata
    exact congrArg String.mk this

/-- Witness for C3 amended: identical parameter lists give the identical
key, and changing one parameter value changes the key under the stand-in
hash. -/
theorem C3_cache_key_determinism_witness :
    get_cache_key strHash "reports" [("page", "1")] =
      get_cache_key strHash "reports" [("page", "1")] ∧
    get_cache_key strHash "reports" [("page", "1")] ≠
      get_cache_key strHash "reports" [("page", "2")] :=
  ⟨(C3_cache_key_determinism strHash "reports" [("page", "1")]
      [("page", "1")]).1 rfl,
    (C3_cache_key_determinism strHash "reports" [("page", "1")]
      [("page", "2")]).2 (by decide)⟩

/-- The Redis store as the handlers observe it: an entry is the decoded
JSON value of a key; a missing key, an empty raw string and a failed
read or decode all fold into `none` (`get_cached_response` returns `None`
for each of them). -/
def CacheStore : Type := String → Option JVal

/-- `get_cached_response` (`src/api/app.py` lines 72-80): `None` when the
client handle is absent, otherwise the store's (possibly absent) decoded
value. -/
def get_cached_response (redis : Option CacheStore) (key : String) :
    Option JVal :=
  match redis with
  | none => none
  | some store => store key

/-- Python truthiness of the `if cached:` test a read handler applies to
`get_cached_response`'s result. -/
def cacheHit : Option JVal → Bool
  | none => false
  | some v => v.truthy

/-- The body `jsonify({'error': msg})`. -/
def errBody (msg : String) : JVal :=
  JVal.obj [("error", JVal.s msg)]

/-- The search request body `get_reports` sends (`src/api/app.py` lines
206-214): query, `size`, `from` and the single sort entry. -/
structure EsRequest where
  query : EsQuery
  size : Int
  from_index : Int
  sortField : String
  sortOrder : String
  deriving DecidableEq

/-- One hit of a search response: `_id` and `_source`. -/
structure Hit where
  id : String
  source : List (String × JVal)

/-- The part of `es.search`'s response `get_reports` reads: the hit list
and `hits.total.value`. -/
structure SearchResponse where
  hits : List Hit
  total : Nat

/-- Everything observable about one run of the listing handler: the HTTP
status and body, the search requests executed against Elasticsearch and
the cache writes performed. -/
structure ReportsRun where
  status : Nat
  body : JVal
  esRequests : List EsRequest
  cacheWrites : List (String × JVal)

/-- `get_reports` (`src/api/app.py` lines 164-235). `esSearch` models
`es.search` on the built request (`Except.error` is a raised exception,
caught by the handler's `except` clause). The handler performs no cache
read and no cache write; the unused `redis` argument is the module-level
client in scope. When `size` is zero, Python raises `ZeroDivisionError`
computing `pages` (after the search) and the `except` clause answers 500
with the exception text. -/
def get_reports (maxPageSize : Int) (redis : Option CacheStore)
    (esAvailable : Bool) (page_arg size_arg : Option Int) (f : FilterSet)
    (esSearch : EsRequest → Except String SearchResponse) : ReportsRun :=
  if !esAvailable then
    ⟨503, errBody "Elasticsearch not available", [], []⟩
  else
    let page := page_arg.getD 1
    let size := min (size_arg.getD 20) maxPageSize
    let from_index := (page - 1) * size
    let req : EsRequest := ⟨buildQuery f, size, from_index, "@timestamp", "desc"⟩
    match esSearch req with
    | .error e => ⟨500, errBody e, [req], []⟩
    | .ok resp =>
      if size = 0 then
        ⟨500, errBody "integer division or modulo by zero", [req], []⟩
      else
        let reports := resp.hits.map (fun h =>
          JVal.obj (h.source ++ [("_id", JVal.s h.id)]))
        let pages := ((resp.total : Int) + size - 1).fdiv size
        ⟨200,
          JVal.obj [("reports", JVal.arr reports),
            ("total", JVal.n resp.total), ("page", JVal.n page),
            ("size", JVal.n size), ("pages", JVal.n pages)],
          [req], []⟩

/-- One bucket of a terms aggregation: `key` and `doc_count`. -/
structure Bucket where
  key : String
  doc_count : Nat
  deriving DecidableEq

/-- The shaped body of the top-organizations endpoint
(`src/api/app.py` lines 266-273). -/
def organizations_result (buckets : List Bucket) : JVal :=
  JVal.obj [("organizations", JVal.arr (buckets.map (fun b =>
    JVal.obj [("organization", JVal.s b.key),
      ("reports", JVal.n b.doc_count)])))]

/-- Everything observable about one run of an aggregation handler. -/
structure AggRun where
  status : Nat
  body : JVal
  searched : Bool
  cacheWrites : List (String × JVal)

/-- The cache-miss path of `get_top_organizations` (`src/api/app.py`
lines 248-279): read `size` (default 10), run the terms aggregation,
shape the result, write it to the cache when the client is present, and
return it; a raised search exception is answered with a 500 and its text. -/
def top_organizations_miss (redis : Option CacheStore) (cache_key : String)
    (size_arg : Option Int) (esAgg : Int → Except String (List Bucket)) :
    AggRun :=
  let size := size_arg.getD 10
  match esAgg size with
  | .error e => ⟨500, errBody e, true, []⟩
  | .ok buckets =>
    let result := organizations_result buckets
    ⟨200, result, true,
      match redis with
      | some _ => [(cache_key, result)]
      | none => []⟩

/-- `get_top_organizations` (`src/api/app.py` lines 237-279): 503 when
the search client is absent; otherwise build the cache key over the
request args, return a truthy cached value unmodified, and fall through
to the miss path otherwise. `esAgg` models the terms aggregation at a
given bucket count. -/
def get_top_organizations (pyHash : String → Int)
    (redis : Option CacheStore) (esAvailable : Bool)
    (args : List (String × String)) (size_arg : Option Int)
    (esAgg : Int → Except String (List Bucket)) : AggRun :=
  if !esAvailable then
    ⟨503, errBody "Elasticsearch not available", false, []⟩
  else
    let cache_key := get_cache_key pyHash "top_orgs" args
    match get_cached_response redis cache_key with
    | some v =>
      if v.truthy then ⟨200, v, false, []⟩
      else top_organizations_miss redis cache_key size_arg esAgg
    | none => top_organizations_miss redis cache_key size_arg esAgg

/-- The shaped body of the dispositions endpoint
(`src/api/app.py` lines 312-319). -/
def dispositions_result (buckets : List Bucket) : JVal :=
  JVal.obj [("dispositions", JVal.arr (buckets.map (fun b =>
    JVal.obj [("disposition", JVal.s b.key),
      ("count", JVal.n b.doc_count)])))]

/-- The cache-miss path of `get_disposition_stats` (`src/api/app.py`
lines 292-325). -/
def disposition_stats_miss (redis : Option CacheStore) (cache_key : String)
    (esAgg : Except String (List Bucket)) : AggRun :=
  match esAgg with
  | .error e => ⟨500, errBody e, true, []⟩
  | .ok buckets =>
    let result := dispositions_result buckets
    ⟨200, result, true,
      match redis with
      | some _ => [(cache_key, result)]
      | none => []⟩

/-- `get_disposition_stats` (`src/api/app.py` lines 281-325): cache key
over the endpoint name and the empty parameter dict, cached value
returned unmodified when truthy, miss path otherwise. -/
def get_disposition_stats (pyHash : String → Int)
    (redis : Option CacheStore) (esAvailable : Bool)
    (esAgg : Except String (List Bucket)) : AggRun :=
  if !esAvailable then
    ⟨503, errBody "Elasticsearch not available", false, []⟩
  else
    let cache_key := get_cache_key pyHash "dispositions" []
    match get_cached_response redis cache_key with
    | some v =>
      if v.truthy then ⟨200, v, false, []⟩
      else disposition_stats_miss redis cache_key esAgg
    | none => disposition_stats_miss redis cache_key esAgg

/-- The date-range dict of the timeline endpoint. -/
structure DateRange where
  gte : Option String
  lte : Option String
  deriving DecidableEq

/-- The range built at `src/api/app.py` lines 339-347: `gte` is set from
a truthy `date_from`; then, if `date_to` is truthy, `lte` is set — ELSE
`gte` is overwritten with `now30` (the instant 30 days before current
time). The `else` hangs off the `date_to` test alone, so a supplied
`date_from` is discarded whenever `date_to` is absent. -/
def timeline_date_range (now30 : String) (date_from date_to : Option String) :
    DateRange :=
  let r : DateRange := ⟨none, none⟩
  let r := match strOpt date_from with
    | some s => { r with gte := some s }
    | none => r
  match strOpt date_to with
  | some s => { r with lte := some s }
  | none => { r with gte := some now30 }

/-- One bucket of the date histogram: `key_as_string` and `doc_count`. -/
structure TimeBucket where
  key_as_string : String
  doc_count : Nat
  deriving DecidableEq

/-- Everything observable about one run of the timeline handler,
including the query it puts in the search body. -/
structure TimelineRun where
  status : Nat
  body : JVal
  query : Option EsQuery
  interval : Option String
  cacheWrites : List (String × JVal)

/-- `get_timeline_data` (`src/api/app.py` lines 327-378): no cache read
or write; the query is the bare range when the range dict is nonempty and
`match_all` otherwise; the histogram interval defaults to `day`. -/
def get_timeline_data (redis : Option CacheStore) (esAvailable : Bool)
    (interval_arg date_from date_to : Option String) (now30 : String)
    (esAgg : Except String (List TimeBucket)) : TimelineRun :=
  if !esAvailable then
    ⟨503, errBody "Elasticsearch not available", none, none, []⟩
  else
    let interval := interval_arg.getD "day"
    let r := timeline_date_range now30 date_from date_to
    let query :=
      if r.gte.isNone && r.lte.isNone then EsQuery.matchAll
      else EsQuery.singleClause (Clause.range "@timestamp" r.gte r.lte)
    match esAgg with
    | .error e => ⟨500, errBody e, some query, some interval, []⟩
    | .ok buckets =>
      let timeline := buckets.map (fun b =>
        JVal.obj [("date", JVal.s b.key_as_string),
          ("count", JVal.n b.doc_count)])
      ⟨200, JVal.obj [("timeline", JVal.arr timeline)],
        some query, some interval, []⟩

/-- `d[key] = v` on a JSON object (Python dict assignment): replace an
existing binding, else append; on any non-object the Python statement
raises, handled where `setKey` is applied. -/
def JVal.setKey : JVal → String → JVal → JVal
  | .obj fields, key, v =>
    if fields.any (fun kv => kv.1 == key) then
      .obj (fields.map (fun kv => if kv.1 == key then (kv.1, v) else kv))
    else
      .obj (fields ++ [(key, v)])
  | j, _, _ => j

/-- Python `dict.get(key)` on a JSON object: the bound value or `None`. -/
def JVal.getKey : JVal → String → Option JVal
  | .obj fields, key => (fields.find? (fun kv => kv.1 == key)).map Prod.snd
  | _, _ => none

/-- Whether a JSON value is an object. -/
def JVal.isObj : JVal → Bool
  | .obj _ => true
  | _ => false

/-- The stamping of an inbound report (`src/api/app.py` lines 395-398):
current UTC timestamp, fixed provenance tag and a fresh processing id. -/
def stampReport (data : JVal) (now pid : String) : JVal :=
  ((data.setKey "@timestamp" (JVal.s now)).setKey "processed_by"
    (JVal.s "dmarc-api")).setKey "processing_id" (JVal.s pid)

/-- One `live_update` WebSocket message as `emit_live_update` sends it. -/
structure LiveUpdate where
  type : String
  data : JVal
  timestamp : String

/-- What one call to `emit_live_update` amounts to: the event was handed
to the transport, or the raised transport exception was caught and
logged. -/
inductive EmitOutcome where
  | delivered (event : LiveUpdate)
  | logged (error : String)

/-- `emit_live_update` (`src/api/app.py` lines 82-91): `socketio.emit`
is wrapped in a try/except that logs any exception; the function is total
into `EmitOutcome` and propagates nothing to its caller. `emitRaises` is
the exception `socketio.emit` raises, when it raises one. -/
def emit_live_update (emitRaises : Option String) (event_type : String)
    (data : JVal) (now : String) : EmitOutcome :=
  match emitRaises with
  | some e => .logged e
  | none => .delivered ⟨event_type, data, now⟩

/-- The result of `es.index`: storage id and index name. -/
structure IndexResult where
  id : String
  index : String
  deriving DecidableEq

/-- Everything observable about one run of the ingest handler: status,
body, whether `es.index` was called, whether the `api:*` cache namespace
flush ran, and the live-update emissions. -/
structure ProcessRun where
  status : Nat
  body : JVal
  indexed : Bool
  cacheFlushed : Bool
  emits : List EmitOutcome

/-- `process_report` (`src/api/app.py` lines 380-424). `rawEmpty` is the
`request.data` emptiness test; `parsed` is `request.get_json(silent=True)`.
`es.index` (modelled by `esIndex`) is not inside a try/except: a raised
write error propagates to the app-level `handle_all_exceptions`, which
answers 500 with a generic body — and neither the cache flush nor the
broadcast runs. After a committed write, lines 407-410 flush the `api:*`
namespace when the cache client is present; `redis_client.keys` and
`redis_client.delete` are also unwrapped (unlike the read handlers'
cache calls), so a raised cache error — `flushRaises`, possible only when
the client is present — likewise propagates to the generic 500 handler
with no deletion completed and no broadcast, even though the write
committed. Then the live update is emitted. A truthy non-object body, or
a truthy non-object `policy_published`, makes the corresponding attribute
access raise, again answered by the generic 500 handler. -/
def process_report (redis : Option CacheStore) (esAvailable : Bool)
    (rawEmpty : Bool) (parsed : Option JVal) (now pid : String)
    (esIndex : Except String IndexResult) (flushRaises : Option String)
    (emitRaises : Option String) : ProcessRun :=
  if !esAvailable then
    ⟨503, errBody "Elasticsearch not available", false, false, []⟩
  else if rawEmpty then
    ⟨400, errBody "No data provided", false, false, []⟩
  else
    match parsed with
    | none => ⟨400, errBody "Invalid or empty JSON", false, false, []⟩
    | some data =>
      if !data.truthy then
        ⟨400, errBody "No data provided", false, false, []⟩
      else if !data.isObj then
        ⟨500, errBody "Internal server error", false, false, []⟩
      else
        let stamped := stampReport data now pid
        match esIndex with
        | .error _ =>
          ⟨500, errBody "Internal server error", true, false, []⟩
        | .ok result =>
          match redis, flushRaises with
          | some _, some _ =>
            ⟨500, errBody "Internal server error", true, false, []⟩
          | _, _ =>
            let flushed := redis.isSome
            match (stamped.getKey "policy_published").getD (JVal.obj []) with
            | .obj pp =>
              let update := JVal.obj [("id", JVal.s result.id),
                ("org_name", (stamped.getKey "org_name").getD JVal.null),
                ("domain", ((JVal.obj pp).getKey "domain").getD JVal.null),
                ("timestamp", JVal.s now)]
              ⟨200,
                JVal.obj [("success", JVal.b true), ("id", JVal.s result.id),
                  ("index", JVal.s result.index)],
                true, flushed,
                [emit_live_update emitRaises "new_report" update now]⟩
            | _ =>
              ⟨500, errBody "Internal server error", true, flushed, []⟩

/-- The listing handler's run does not depend on the cache client at all. -/
theorem get_reports_redis_irrelevant (maxPageSize : Int)
    (redis redis' : Option CacheStore) (esAvailable : Bool)
    (page_arg size_arg : Option Int) (f : FilterSet)
    (esSearch : EsRequest → Except String SearchResponse) :
    get_reports maxPageSize redis esAvailable page_arg size_arg f esSearch =
      get_reports maxPageSize redis' esAvailable page_arg size_arg f esSearch :=
  rfl

/-- The listing handler writes nothing to the cache. -/
theorem get_reports_no_cache_write (maxPageSize : Int)
    (redis : Option CacheStore) (esAvailable : Bool)
    (page_arg size_arg : Option Int) (f : FilterSet)
    (esSearch : EsRequest → Except String SearchResponse) :
    (get_reports maxPageSize redis esAvailable page_arg size_arg f
      esSearch).cacheWrites = [] := by
  unfold get_reports
  split
  · rfl
  · dsimp only
    split
    · rfl
    · split
      · rfl
      · rfl

/-- The timeline handler's run does not depend on the cache client at all. -/
theorem get_timeline_redis_irrelevant (redis redis' : Option CacheStore)
    (esAvailable : Bool) (interval_arg date_from date_to : Option String)
    (now30 : String) (esAgg : Except String (List TimeBucket)) :
    get_timeline_data redis esAvailable interval_arg date_from date_to now30
        esAgg =
      get_timeline_data redis' esAvailable interval_arg date_from date_to
        now30 esAgg :=
  rfl

/-- The timeline handler writes nothing to the cache. -/
theorem get_timeline_no_cache_write (redis : Option CacheStore)
    (esAvailable : Bool) (interval_arg date_from date_to : Option String)
    (now30 : String) (esAgg : Except String (List TimeBucket)) :
    (get_timeline_data redis esAvailable interval_arg date_from date_to now30
      esAgg).cacheWrites = [] := by
  unfold get_timeline_data
  split
  · rfl
  · split
    · rfl
    · rfl

/-- C2 counterexample: a cache in which every key holds the truthy payload
`"CACHED"`, so any key the listing handler could build hits; yet the
handler does not return the cached payload — it executes the search and
answers with the freshly shaped listing, writing nothing back. This
refutes the claim for the listing handler. -/
theorem C2_cache_bypass_counterexample :
    (get_reports 100 (some (fun _ => some (JVal.s "CACHED"))) true none none
        ⟨none, none, none, none, none⟩
        (fun _ => Except.ok ⟨[], 0⟩)).body ≠ JVal.s "CACHED" ∧
    (get_reports 100 (some (fun _ => some (JVal.s "CACHED"))) true none none
        ⟨none, none, none, none, none⟩
        (fun _ => Except.ok ⟨[], 0⟩)).cacheWrites = [] ∧
    (get_reports 100 (some (fun _ => some (JVal.s "CACHED"))) true none none
        ⟨none, none, none, none, none⟩
        (fun _ => Except.ok ⟨[], 0⟩)).esRequests ≠ [] :=
  ⟨fun h => JVal.noConfusion h, rfl, fun h => List.noConfusion h⟩

/-- C2 amended: the top-organizations and disposition-breakdown handlers
are cache-first — they build the cache key, return a truthy cached value
unmodified without searching, and on a miss execute the aggregation,
cache the shaped result (when the client is present) and return it — while
the listing and timeline handlers never read or write the cache. -/
theorem C2_cache_first (pyHash : String → Int) (redis : Option CacheStore)
    (args : List (String × String)) (size_arg : Option Int)
    (aggOrgs : Int → Except String (List Bucket))
    (aggDisp : Except String (List Bucket)) (maxPageSize : Int)
    (page_arg size_arg2 : Option Int) (f : FilterSet)
    (esSearch : EsRequest → Except String SearchResponse)
    (interval_arg date_from date_to : Option String) (now30 : String)
    (tAgg : Except String (List TimeBucket)) :
    (∀ v, get_cached_response redis (get_cache_key pyHash "top_orgs" args) =
        some v → v.truthy = true →
      get_top_organizations pyHash redis true args size_arg aggOrgs =
        ⟨200, v, false, []⟩) ∧
    (cacheHit (get_cached_response redis
        (get_cache_key pyHash "top_orgs" args)) = false →
      (get_top_organizations pyHash redis true args size_arg
          aggOrgs).searched = true ∧
      ∀ buckets, aggOrgs (size_arg.getD 10) = Except.ok buckets →
        get_top_organizations pyHash redis true args size_arg aggOrgs =
          ⟨200, organizations_result buckets, true,
            if redis.isSome then
              [(get_cache_key pyHash "top_orgs" args,
                organizations_result buckets)]
            else []⟩) ∧
    (∀ v, get_cached_response redis (get_cache_key pyHash "dispositions" []) =
        some v → v.truthy = true →
      get_disposition_stats pyHash redis true aggDisp = ⟨200, v, false, []⟩) ∧
    (cacheHit (get_cached_response redis
        (get_cache_key pyHash "dispositions" [])) = false →
      (get_disposition_stats pyHash redis true aggDisp).searched = true ∧
      ∀ buckets, aggDisp = Except.ok buckets →
        get_disposition_stats pyHash redis true aggDisp =
          ⟨200, dispositions_result buckets, true,
            if redis.isSome then
              [(get_cache_key pyHash "dispositions" [],
                dispositions_result buckets)]
            else []⟩) ∧
    (∀ redis', get_reports maxPageSize redis true page_arg size_arg2 f
        esSearch =
      get_reports maxPageSize redis' true page_arg size_arg2 f esSearch) ∧
    (get_reports maxPageSize redis true page_arg size_arg2 f
      esSearch).cacheWrites = [] ∧
    (∀ redis', get_timeline_data redis true interval_arg date_from date_to
        now30 tAgg =
      get_timeline_data redis' true interval_arg date_from date_to now30
        tAgg) ∧
    (get_timeline_data redis true interval_arg date_from date_to now30
      tAgg).cacheWrites = [] := by
  refine ⟨?_, ?_, ?_, ?_, fun redis' => get_reports_redis_irrelevant _ _ _ _ _ _ _ _,
    get_reports_no_cache_write _ _ _ _ _ _ _,
    fun redis' => get_timeline_redis_irrelevant _ _ _ _ _ _ _ _,
    get_timeline_no_cache_write _ _ _ _ _ _ _⟩
  · intro v hv htr
    simp [get_top_organizations, hv, htr]
  · intro hmiss
    have hto : get_top_organizations pyHash redis true args size_arg aggOrgs =
        top_organizations_miss redis (get_cache_key pyHash "top_orgs" args)
          size_arg aggOrgs := by
      rcases hl : get_cached_response redis
          (get_cache_key pyHash "top_orgs" args) with _ | v
      · simp [get_top_organizations, hl]
      · rw [hl] at hmiss
        simp only [cacheHit] at hmiss
        simp [get_top_organizations, hl, hmiss]
    rw [hto]
    constructor
    · unfold top_organizations_miss
      dsimp only
      split <;> rfl
    · intro buckets hb
      unfold top_organizations_miss
      dsimp only
      rw [hb]
      rcases redis with _ | store <;> simp
  · intro v hv htr
    simp [get_disposition_stats, hv, htr]
  · intro hmiss
    have hds : get_disposition_stats pyHash redis true aggDisp =
        disposition_stats_miss redis (get_cache_key pyHash "dispositions" [])
          aggDisp := by
      rcases hl : get_cached_response redis
          (get_cache_key pyHash "dispositions" []) with _ | v
      · simp [get_disposition_stats, hl]
      · rw [hl] at hmiss
        simp only [cacheHit] at hmiss
        simp [get_disposition_stats, hl, hmiss]
    rw [hds]
    constructor
    · unfold disposition_stats_miss
      dsimp only
      split <;> rfl
    · intro buckets hb
      unfold disposition_stats_miss
      dsimp only
      rw [hb]
      rcases redis with _ | store <;> simp

/-- Witness for C2 amended at concrete inputs: a truthy cached value is
returned unmodified by the top-organizations handler, and on an empty
cache the shaped aggregation is computed and written back. -/
theorem C2_cache_first_witness :
    get_top_organizations strHash (some (fun _ => some (JVal.s "HIT"))) true
        [] none (fun _ => Except.ok [⟨"Google", 100⟩]) =
      ⟨200, JVal.s "HIT", false, []⟩ ∧
    get_top_organizations strHash (some (fun _ => none)) true [] none
        (fun _ => Except.ok [⟨"Google", 100⟩]) =
      ⟨200, organizations_result [⟨"Google", 100⟩], true,
        [(get_cache_key strHash "top_orgs" [],
          organizations_result [⟨"Google", 100⟩])]⟩ :=
  ⟨(C2_cache_first strHash (some (fun _ => some (JVal.s "HIT"))) [] none
      (fun _ => Except.ok [⟨"Google", 100⟩]) (Except.ok []) 100 none none
      ⟨none, none, none, none, none⟩ (fun _ => Except.ok ⟨[], 0⟩) none none
      none "" (Except.ok [])).1 (JVal.s "HIT") rfl rfl,
    ((C2_cache_first strHash (some (fun _ => none)) [] none
      (fun _ => Except.ok [⟨"Google", 100⟩]) (Except.ok []) 100 none none
      ⟨none, none, none, none, none⟩ (fun _ => Except.ok ⟨[], 0⟩) none none
      none "" (Except.ok [])).2.1 rfl).2 [⟨"Google", 100⟩] rfl⟩

/-- C4 evaluation. The listing side holds: a single given bound yields a
range clause open-ended on the missing side with the bound unchanged, and
the timeline defaults to the trailing 30-day window when no range is
requested. But at the failing input — timeline request with
`date_from = "2024-01-01"` and no `date_to` — the built range discards the
given bound and sets `gte` to now minus 30 days, because the default
`else` hangs off the `date_to` test alone. -/
theorem C4_timeline_range_overwritten :
    buildFilters ⟨none, none, none, some "2024-01-01", none⟩ =
      [Clause.range "@timestamp" (some "2024-01-01") none] ∧
    buildFilters ⟨none, none, none, none, some "2024-02-01"⟩ =
      [Clause.range "@timestamp" none (some "2024-02-01")] ∧
    timeline_date_range "2025-09-12T00:00:00" none none =
      ⟨some "2025-09-12T00:00:00", none⟩ ∧
    timeline_date_range "2025-09-12T00:00:00" (some "2024-01-01") none =
      ⟨some "2025-09-12T00:00:00", none⟩ ∧
    (timeline_date_range "2025-09-12T00:00:00" (some "2024-01-01")
        none).gte ≠ some "2024-01-01" := by
  refine ⟨rfl, rfl, rfl, rfl, ?_⟩
  decide

/-- C5 counterexample: with the search client initialized but the engine
unreachable at request time, `es.search` raises a connection error, the
handler's `except` catches it, and the response is a 500 — not the 503 the
claim requires for every unreachable-engine failure. -/
theorem C5_search_error_500_counterexample :
    (get_reports 100 none true none none ⟨none, none, none, none, none⟩
      (fun _ => Except.error "ConnectionError: cluster unreachable")).status
        = 500 ∧
    (get_reports 100 none true none none ⟨none, none, none, none, none⟩
      (fun _ => Except.error "ConnectionError: cluster unreachable")).status
        ≠ 503 :=
  ⟨rfl, by decide⟩

/-- C5 amended: every read/aggregation handler answers 503 with the
explanatory body exactly when the search client handle is absent
(initialization failed); a search call that raises at request time —
connection errors included — is caught and answered 500 with the
exception text as body. -/
theorem C5_unavailable_503 (maxPageSize : Int) (pyHash : String → Int)
    (redis : Option CacheStore) (page_arg size_arg : Option Int)
    (f : FilterSet) (esSearch : EsRequest → Except String SearchResponse)
    (args : List (String × String)) (size_arg2 : Option Int)
    (interval_arg date_from date_to : Option String) (now30 : String)
    (e : String) :
    ((get_reports maxPageSize redis false page_arg size_arg f
        esSearch).status = 503 ∧
      (get_reports maxPageSize redis false page_arg size_arg f
        esSearch).body = errBody "Elasticsearch not available") ∧
    ((get_top_organizations pyHash redis false args size_arg2
        (fun _ => Except.error e)).status = 503 ∧
      (get_top_organizations pyHash redis false args size_arg2
        (fun _ => Except.error e)).body =
        errBody "Elasticsearch not available") ∧
    ((get_disposition_stats pyHash redis false
        (Except.error e)).status = 503 ∧
      (get_disposition_stats pyHash redis false (Except.error e)).body =
        errBody "Elasticsearch not available") ∧
    ((get_timeline_data redis false interval_arg date_from date_to now30
        (Except.error e)).status = 503 ∧
      (get_timeline_data redis false interval_arg date_from date_to now30
        (Except.error e)).body = errBody "Elasticsearch not available") ∧
    ((get_reports maxPageSize redis true page_arg size_arg f
        (fun _ => Except.error e)).status = 500 ∧
      (get_reports maxPageSize redis true page_arg size_arg f
        (fun _ => Except.error e)).body = errBody e) ∧
    ((get_top_organizations pyHash none true args size_arg2
        (fun _ => Except.error e)).status = 500 ∧
      (get_top_organizations pyHash none true args size_arg2
        (fun _ => Except.error e)).body = errBody e) ∧
    ((get_disposition_stats pyHash none true (Except.error e)).status = 500 ∧
      (get_disposition_stats pyHash none true (Except.error e)).body =
        errBody e) ∧
    ((get_timeline_data redis true interval_arg date_from date_to now30
        (Except.error e)).status = 500 ∧
      (get_timeline_data redis true interval_arg date_from date_to now30
        (Except.error e)).body = errBody e) :=
  ⟨⟨rfl, rfl⟩, ⟨rfl, rfl⟩, ⟨rfl, rfl⟩, ⟨rfl, rfl⟩, ⟨rfl, rfl⟩, ⟨rfl, rfl⟩,
    ⟨rfl, rfl⟩, ⟨rfl, rfl⟩⟩

/-- C6: ingestion side effects are gated by the write. The cache flush
completes only when `es.index` returned a result, the broadcast is
emitted only when it did, and a raised write error on a valid body
propagates to the generic handler: 500 with the generic body, no flush,
no emission — whatever the cache flush or emit would have done. -/
theorem C6_write_gates_side_effects (redis : Option CacheStore)
    (esAvailable rawEmpty : Bool) (parsed : Option JVal) (now pid : String)
    (esIndex : Except String IndexResult) (flushRaises : Option String)
    (emitRaises : Option String) :
    ((process_report redis esAvailable rawEmpty parsed now pid esIndex
        flushRaises emitRaises).cacheFlushed = true →
      ∃ r, esIndex = Except.ok r) ∧
    ((process_report redis esAvailable rawEmpty parsed now pid esIndex
        flushRaises emitRaises).emits ≠ [] → ∃ r, esIndex = Except.ok r) ∧
    (∀ fields e, esAvailable = true → rawEmpty = false →
      parsed = some (JVal.obj fields) → fields ≠ [] →
      esIndex = Except.error e →
      process_report redis esAvailable rawEmpty parsed now pid esIndex
          flushRaises emitRaises =
        ⟨500, errBody "Internal server error", true, false, []⟩) := by
  refine ⟨?_, ?_, ?_⟩
  · intro h
    unfold process_report at h
    repeat' split at h
    all_goals first | rfl | simp_all
  · intro h
    unfold process_report at h
    repeat' split at h
    all_goals first | rfl | simp_all
  · intro fields e hes hraw hp hne hidx
    subst hes hraw hp hidx
    have hcons : fields.isEmpty = false := by
      cases fields with
      | nil => exact absurd rfl hne
      | cons a l => rfl
    simp [process_report, JVal.truthy, JVal.isObj, hcons]

/-- Witness for C6 at a concrete input: a failed write on a valid body
yields the generic 500 with no cache flush and no emission. -/
theorem C6_write_gates_side_effects_witness :
    process_report (some (fun _ => none)) true false
        (some (JVal.obj [("org_name", JVal.s "X")])) "2024-01-01T00:00:00"
        "pid-1" (Except.error "write refused") none none =
      ⟨500, errBody "Internal server error", true, false, []⟩ :=
  (C6_write_gates_side_effects (some (fun _ => none)) true false
      (some (JVal.obj [("org_name", JVal.s "X")])) "2024-01-01T00:00:00"
      "pid-1" (Except.error "write refused") none none).2.2
    [("org_name", JVal.s "X")] "write refused" rfl rfl rfl
    (List.cons_ne_nil _ _) rfl

/-- C10 counterexample: the post-write cache flush at lines 407-410 is
unwrapped, so with the Redis client present but the server unreachable,
`redis_client.keys` raises after the document write committed; the
exception propagates to the generic handler, which answers 500 with no
broadcast — refuting the claim that every valid request whose write
succeeds returns the 200 success body. -/
theorem C10_flush_failure_counterexample :
    (process_report (some (fun _ => none)) true false
        (some (JVal.obj [("org_name", JVal.s "X")])) "2024-01-01T00:00:00"
        "pid-1" (Except.ok ⟨"doc-9", "parsedmarc-aggregate-2024.01.01"⟩)
        (some "ConnectionError: redis unreachable") none) =
      ⟨500, errBody "Internal server error", true, false, []⟩ ∧
    (500 : Nat) ≠ 200 :=
  ⟨rfl, by decide⟩

/-- C10 amended: a transport exception raised while emitting the live
update is caught inside `emit_live_update` (it becomes a logged outcome,
nothing propagates), and the ingest handler's status, body and cache
flush are invariant under emit failure; a valid request whose write
commits returns the 200 success body carrying the storage id — whatever
the emit does — provided the post-write cache flush does not raise (the
flush is unwrapped, so a raised cache error yields a 500 even after the
committed write, as the counterexample shows). -/
theorem C10_emit_failure_isolated :
    (∀ e event_type data now,
      emit_live_update (some e) event_type data now = EmitOutcome.logged e) ∧
    (∀ redis esAvailable rawEmpty parsed now pid esIndex fl er er',
      (process_report redis esAvailable rawEmpty parsed now pid esIndex
        fl er).status =
        (process_report redis esAvailable rawEmpty parsed now pid esIndex
          fl er').status ∧
      (process_report redis esAvailable rawEmpty parsed now pid esIndex
        fl er).body =
        (process_report redis esAvailable rawEmpty parsed now pid esIndex
          fl er').body ∧
      (process_report redis esAvailable rawEmpty parsed now pid esIndex
        fl er).cacheFlushed =
        (process_report redis esAvailable rawEmpty parsed now pid esIndex
          fl er').cacheFlushed) ∧
    (∀ redis fields now pid r er, fields ≠ [] →
      (((stampReport (JVal.obj fields) now pid).getKey
          "policy_published").getD (JVal.obj [])).isObj = true →
      (process_report redis true false (some (JVal.obj fields)) now pid
        (Except.ok r) none er).status = 200 ∧
      (process_report redis true false (some (JVal.obj fields)) now pid
        (Except.ok r) none er).body =
        JVal.obj [("success", JVal.b true), ("id", JVal.s r.id),
          ("index", JVal.s r.index)]) := by
  refine ⟨fun e et d n => rfl, ?_, ?_⟩
  · intro redis esAvailable rawEmpty parsed now pid esIndex fl er er'
    unfold process_report
    refine ⟨?_, ?_, ?_⟩ <;>
      · repeat' first | split | dsimp only
  · intro redis fields now pid r er hne hpp
    have hcons : fields.isEmpty = false := by
      cases fields with
      | nil => exact absurd rfl hne
      | cons a l => rfl
    rcases redis with _ | store <;>
    · unfold process_report
      simp only [Bool.not_true, JVal.truthy, JVal.isObj, hcons,
        Bool.not_false]
      rcases hk : ((stampReport (JVal.obj fields) now pid).getKey
          "policy_published").getD (JVal.obj []) with _ | _ | _ | _ | _ | pp <;>
        simp [hk, JVal.isObj] at hpp ⊢

/-- Witness for C10 amended at a concrete input: the write commits, the
flush does not raise, the emit raises, and the handler still answers the
200 success body with the storage id. -/
theorem C10_emit_failure_isolated_witness :
    (process_report none true false
        (some (JVal.obj [("org_name", JVal.s "X")])) "2024-01-01T00:00:00"
        "pid-1" (Except.ok ⟨"doc-9", "parsedmarc-aggregate-2024.01.01"⟩)
        none (some "socket closed")).status = 200 ∧
    (process_report none true false
        (some (JVal.obj [("org_name", JVal.s "X")])) "2024-01-01T00:00:00"
        "pid-1" (Except.ok ⟨"doc-9", "parsedmarc-aggregate-2024.01.01"⟩)
        none (some "socket closed")).body =
      JVal.obj [("success", JVal.b true), ("id", JVal.s "doc-9"),
        ("index", JVal.s "parsedmarc-aggregate-2024.01.01")] :=
  (C10_emit_failure_isolated).2.2 none [("org_name", JVal.s "X")]
    "2024-01-01T00:00:00" "pid-1" ⟨"doc-9", "parsedmarc-aggregate-2024.01.01"⟩
    (some "socket closed") (List.cons_ne_nil _ _) rfl

/-- Floor division of `t + n - 1` by `n` computes the ceiling of
`t / n` (for positive `n`). -/
theorem fdiv_pred_eq_ceilDiv (t n : Nat) (hn : 0 < n) :
    ((t : Int) + (n : Int) - 1).fdiv (n : Int) = ((t ⌈/⌉ n : Nat) : Int) := by
  have h1 : (t : Int) + (n : Int) - 1 = ((t + n - 1 : Nat) : Int) := by omega
  rw [h1, Nat.ceilDiv_eq_add_pred_div, Int.ofNat_fdiv]

/-- C7: listing pagination arithmetic. `page` and `size` default to 1 and
20; `size` is clamped to the configured maximum; the search request
carries offset `(page-1)*size` and sorts by `@timestamp` descending; and
the returned `pages` field is the ceiling of `total/size` — the least `m`
with `size*m ≥ total`. -/
theorem C7_pagination (maxPageSize : Int) (redis : Option CacheStore)
    (page_arg size_arg : Option Int) (f : FilterSet) (resp : SearchResponse)
    (hpos : 0 < min (size_arg.getD 20) maxPageSize) :
    (get_reports maxPageSize redis true page_arg size_arg f
        (fun _ => Except.ok resp)).status = 200 ∧
    (get_reports maxPageSize redis true page_arg size_arg f
        (fun _ => Except.ok resp)).esRequests =
      [⟨buildQuery f, min (size_arg.getD 20) maxPageSize,
        (page_arg.getD 1 - 1) * min (size_arg.getD 20) maxPageSize,
        "@timestamp", "desc"⟩] ∧
    (get_reports maxPageSize redis true page_arg size_arg f
        (fun _ => Except.ok resp)).body =
      JVal.obj [("reports", JVal.arr (resp.hits.map (fun h =>
          JVal.obj (h.source ++ [("_id", JVal.s h.id)])))),
        ("total", JVal.n resp.total),
        ("page", JVal.n (page_arg.getD 1)),
        ("size", JVal.n (min (size_arg.getD 20) maxPageSize)),
        ("pages", JVal.n ((resp.total ⌈/⌉
          (min (size_arg.getD 20) maxPageSize).toNat : Nat) : Int))] ∧
    resp.total ≤ (min (size_arg.getD 20) maxPageSize).toNat *
      (resp.total ⌈/⌉ (min (size_arg.getD 20) maxPageSize).toNat) ∧
    (∀ m : Nat,
      resp.total ≤ (min (size_arg.getD 20) maxPageSize).toNat * m →
      resp.total ⌈/⌉ (min (size_arg.getD 20) maxPageSize).toNat ≤ m) := by
  have hsz : min (size_arg.getD 20) maxPageSize ≠ 0 := ne_of_gt hpos
  have hn : 0 < (min (size_arg.getD 20) maxPageSize).toNat := by omega
  have hcast : (((min (size_arg.getD 20) maxPageSize).toNat : Nat) : Int) =
      min (size_arg.getD 20) maxPageSize := Int.toNat_of_nonneg hpos.le
  have hpages : ((resp.total : Int) + min (size_arg.getD 20) maxPageSize
        - 1).fdiv (min (size_arg.getD 20) maxPageSize) =
      ((resp.total ⌈/⌉ (min (size_arg.getD 20) maxPageSize).toNat : Nat) :
        Int) := by
    conv_lhs => rw [← hcast]
    exact fdiv_pred_eq_ceilDiv resp.total
      (min (size_arg.getD 20) maxPageSize).toNat hn
  refine ⟨?_, ?_, ?_, ?_, ?_⟩
  · simp [get_reports, hsz]
  · simp [get_reports, hsz]
  · simp [get_reports, hsz, hpages]
  · simpa [smul_eq_mul] using le_smul_ceilDiv hn (b := resp.total)
  · intro m hm
    exact (ceilDiv_le_iff_le_smul hn).2 (by simpa [smul_eq_mul] using hm)

/-- Witness for C7 at the spec's concrete inputs: page 3 with size 10
gives offset 20; total 50 with default size 20 gives 3 pages; total 0
gives 0 pages; defaults are page 1 and size 20. -/
theorem C7_pagination_witness :
    (get_reports 100 none true (some 3) (some 10)
        ⟨none, none, none, none, none⟩
        (fun _ => Except.ok ⟨[], 50⟩)).esRequests =
      [⟨EsQuery.matchAll, 10, 20, "@timestamp", "desc"⟩] ∧
    (get_reports 100 none true none none ⟨none, none, none, none, none⟩
        (fun _ => Except.ok ⟨[], 50⟩)).body =
      JVal.obj [("reports", JVal.arr []), ("total", JVal.n 50),
        ("page", JVal.n 1), ("size", JVal.n 20), ("pages", JVal.n 3)] ∧
    (get_reports 100 none true none none ⟨none, none, none, none, none⟩
        (fun _ => Except.ok ⟨[], 0⟩)).body =
      JVal.obj [("reports", JVal.arr []), ("total", JVal.n 0),
        ("page", JVal.n 1), ("size", JVal.n 20), ("pages", JVal.n 0)] :=
  ⟨(C7_pagination 100 none (some 3) (some 10) ⟨none, none, none, none, none⟩
      ⟨[], 50⟩ (by decide)).2.1,
    (C7_pagination 100 none none none ⟨none, none, none, none, none⟩
      ⟨[], 50⟩ (by decide)).2.2.1,
    (C7_pagination 100 none none none ⟨none, none, none, none, none⟩
      ⟨[], 0⟩ (by decide)).2.2.1⟩

/-- C8 counterexample: a client-supplied `page = 0` with `size = 10`
drives the offset passed to the search engine to −10, below zero. -/
theorem C8_negative_offset_counterexample :
    (get_reports 100 none true (some 0) (some 10)
        ⟨none, none, none, none, none⟩
        (fun _ => Except.ok ⟨[], 0⟩)).esRequests =
      [⟨EsQuery.matchAll, 10, -10, "@timestamp", "desc"⟩] ∧
    (-10 : Int) < 0 :=
  ⟨by decide, by decide⟩

/-- C8 amended: the size sent to the search engine is always clamped to
the configured maximum, and the offset is nonnegative whenever the
effective page is at least 1 and the effective size nonnegative — but
nothing clamps `page` itself, so a page below 1 makes the offset
negative. -/
theorem C8_offset_bounds (maxPageSize : Int) (redis : Option CacheStore)
    (page_arg size_arg : Option Int) (f : FilterSet)
    (esSearch : EsRequest → Except String SearchResponse) :
    ∀ req ∈ (get_reports maxPageSize redis true page_arg size_arg f
        esSearch).esRequests,
      req.size ≤ maxPageSize ∧
      (1 ≤ page_arg.getD 1 → 0 ≤ req.size → 0 ≤ req.from_index) := by
  intro req hreq
  have hmem : (get_reports maxPageSize redis true page_arg size_arg f
      esSearch).esRequests =
      [⟨buildQuery f, min (size_arg.getD 20) maxPageSize,
        (page_arg.getD 1 - 1) * min (size_arg.getD 20) maxPageSize,
        "@timestamp", "desc"⟩] := by
    unfold get_reports
    simp only [Bool.not_true, Bool.false_eq_true, if_false]
    try dsimp only
    split
    · rfl
    · split <;> rfl
  rw [hmem] at hreq
  have hre := List.eq_of_mem_singleton hreq
  subst hre
  constructor
  · exact min_le_right _ _
  · intro hp hs
    exact mul_nonneg (by omega) hs

/-- Witness for C8 amended: with page 3 and size 10 under maximum 100,
the executed request's size is within the maximum and its offset is
nonnegative. -/
theorem C8_offset_bounds_witness :
    (⟨EsQuery.matchAll, 10, 20, "@timestamp", "desc"⟩ : EsRequest).size ≤
      100 ∧
    0 ≤ (⟨EsQuery.matchAll, 10, 20, "@timestamp", "desc"⟩ :
      EsRequest).from_index :=
  have h := C8_offset_bounds 100 none (some 3) (some 10)
    ⟨none, none, none, none, none⟩ (fun _ => Except.ok ⟨[], 0⟩)
    ⟨EsQuery.matchAll, 10, 20, "@timestamp", "desc"⟩ (List.Mem.head _)
  ⟨h.1, h.2 (by decide) (by decide)⟩

end Dmarc
